import Mathlib

/-!
Shallow embedding of `src/src/core/types/structs.rs` from the `ocl` crate:
context property lists and their byte serialization, image formats with
raw-code conversion and pixel-size computation, and image descriptors with
their raw-structure projection.

Machine integers are modelled as `Nat`; byte sequences as `List Nat` with
every element a byte value (`< 256`).  The host platform is taken to be a
64-bit little-endian target, so a pointer is 8 bytes wide.
-/

set_option maxRecDepth 4000

namespace Ocl

/-- Modelled from the spec: the native word (pointer) size of the host
platform, in bytes ("pointer-sized" in the wire format).  A 64-bit target
is assumed. -/
def ptrSize : Nat := 8

/-- Modelled from the spec: `util::into_bytes` for a `w`-byte unsigned
integer in platform-native (little-endian) byte order. -/
def intoBytesLE (w n : Nat) : List Nat :=
  (List.range w).map (fun i => n / 2 ^ (8 * i) % 256)

/-- Embedding of `util::into_bytes` on a `u32` / `cl_uint` value: 4 native-order bytes. -/
def intoBytes32 (n : Nat) : List Nat := intoBytesLE 4 n

/-- Embedding of `util::into_bytes` on a pointer-sized (`usize` / `cl_platform_id`)
value: `ptrSize` native-order bytes. -/
def intoBytesPtr (n : Nat) : List Nat := intoBytesLE ptrSize n

/-- A platform handle (`PlatformId`); `as_ptr` is its raw pointer value.
Modelled from the spec: "a platform-handle type usable inside
`ContextProperty::Platform`" offering a borrow-raw-pointer operation. -/
structure PlatformId where
  as_ptr : Nat
deriving DecidableEq, Repr

/-- Modelled from the spec: `ContextProperty` is a "tagged union, variants:
Platform(handle), InteropUserSync(bool), others ignored by the codec"; the
remaining variants of the repository enum are collapsed into `Other`. -/
inductive ContextProperty where
  | Platform : PlatformId → ContextProperty
  | InteropUserSync : Bool → ContextProperty
  | Other : Nat → ContextProperty
deriving DecidableEq, Repr

/-- Modelled from the spec: the integer kind tag of a Platform entry
(`PropKind::Platform as cl_uint`, i.e. `CL_CONTEXT_PLATFORM`). -/
def propKindPlatform : Nat := 0x1084

/-- Modelled from the spec: the integer kind tag of an InteropUserSync
entry (`PropKind::InteropUserSync as cl_uint`,
i.e. `CL_CONTEXT_INTEROP_USER_SYNC`). -/
def propKindInteropUserSync : Nat := 0x1085

/-- Embedding of `ContextProperties`: an ordered list of context properties
(`pub struct ContextProperties(Vec<ContextProperty>)`). -/
structure ContextProperties where
  props : List ContextProperty
deriving DecidableEq, Repr

namespace ContextProperties

/-- Embedding of `ContextProperties::new`: an empty property list (the capacity hint is
not observable). -/
def new : ContextProperties := ⟨[]⟩

/-- Embedding of `ContextProperties::platform`: appends a `Platform` entry
(builder-style). -/
def platform (self : ContextProperties) (p : PlatformId) : ContextProperties :=
  ⟨self.props ++ [ContextProperty.Platform p]⟩

/-- Embedding of `ContextProperties::interop_user_sync`: appends an `InteropUserSync`
entry (builder-style). -/
def interop_user_sync (self : ContextProperties) (sync : Bool) : ContextProperties :=
  ⟨self.props ++ [ContextProperty.InteropUserSync sync]⟩

/-- Embedding of `ContextProperties::and`: pushes one `ContextProperty` onto the list. -/
def and (self : ContextProperties) (prop : ContextProperty) : ContextProperties :=
  ⟨self.props ++ [prop]⟩

/-- Embedding of `ContextProperties::get_platform`: linear scan over all entries,
updating the result at every `Platform` entry, so the last one wins. -/
def get_platform (self : ContextProperties) : Option PlatformId :=
  self.props.foldl
    (fun platform prop =>
      match prop with
      | ContextProperty.Platform plat => some plat
      | _ => platform)
    none

/-- The bytes contributed to `to_bytes` by a single property: the body of
the `for` loop in `ContextProperties::to_bytes`.  `Platform` carries a
pointer-sized value, `InteropUserSync` a `cl_bool` (`u32`) value, and any
other variant is skipped (`_ => continue`). -/
def propBytes (prop : ContextProperty) : List Nat :=
  match prop with
  | ContextProperty.Platform platform_id_core =>
      intoBytes32 propKindPlatform ++ intoBytes32 0 ++
        intoBytesPtr platform_id_core.as_ptr ++ intoBytes32 0
  | ContextProperty.InteropUserSync sync =>
      intoBytes32 propKindInteropUserSync ++ intoBytes32 0 ++
        intoBytes32 (if sync then 1 else 0) ++ intoBytes32 0
  | ContextProperty.Other _ => []

/-- Embedding of `ContextProperties::to_bytes`: for each property in order, append its
kind tag, 4 bytes of padding, its value and 4 more bytes of padding; then
append a pointer-sized terminating zero. -/
def to_bytes (self : ContextProperties) : List Nat :=
  self.props.foldl (fun bytes prop => bytes ++ propBytes prop) [] ++
    intoBytesPtr 0

end ContextProperties

/-- The last `Platform` entry of a property list, written after the spec
sentence "returns the *last* Platform entry found (last-write-wins), or
none": search the reversed list for the first `Platform` entry. -/
def lastPlatformSpec (props : List ContextProperty) : Option PlatformId :=
  props.reverse.findSome?
    (fun prop =>
      match prop with
      | ContextProperty.Platform plat => some plat
      | _ => none)

/-- Modelled from the spec: the `ImageChannelOrder` enumeration of the
`core` module (not under the given sources); its raw codes are "values
defined by the external API's numeric enumeration", i.e. the OpenCL
`cl_channel_order` codes.  `Depth` and `DepthStencil` are the orders left
unlisted by both `pixel_bytes` tables. -/
inductive ImageChannelOrder where
  | R | A | Rg | Ra | Rgb | Rgba | Bgra | Argb
  | Intensity | Luminance | Rx | Rgx | Rgbx | Depth | DepthStencil
deriving DecidableEq, Repr, Fintype

namespace ImageChannelOrder

/-- The raw integer code of a channel order (the Rust `as u32` cast of the
enum discriminant). -/
def to_u32 : ImageChannelOrder → Nat
  | R => 0x10B0
  | A => 0x10B1
  | Rg => 0x10B2
  | Ra => 0x10B3
  | Rgb => 0x10B4
  | Rgba => 0x10B5
  | Bgra => 0x10B6
  | Argb => 0x10B7
  | Intensity => 0x10B8
  | Luminance => 0x10B9
  | Rx => 0x10BA
  | Rgx => 0x10BB
  | Rgbx => 0x10BC
  | Depth => 0x10BD
  | DepthStencil => 0x10BE

/-- Embedding of `ImageChannelOrder::from_u32` (derived `num::FromPrimitive`): the
partial inverse of the discriminant cast. -/
def from_u32 : Nat → Option ImageChannelOrder
  | 0x10B0 => some R
  | 0x10B1 => some A
  | 0x10B2 => some Rg
  | 0x10B3 => some Ra
  | 0x10B4 => some Rgb
  | 0x10B5 => some Rgba
  | 0x10B6 => some Bgra
  | 0x10B7 => some Argb
  | 0x10B8 => some Intensity
  | 0x10B9 => some Luminance
  | 0x10BA => some Rx
  | 0x10BB => some Rgx
  | 0x10BC => some Rgbx
  | 0x10BD => some Depth
  | 0x10BE => some DepthStencil
  | _ => none

end ImageChannelOrder

/-- Modelled from the spec: the `ImageChannelDataType` enumeration of the
`core` module (not under the given sources); raw codes are the OpenCL
`cl_channel_type` codes.  `UnormInt24` is the data type left unlisted by
the `pixel_bytes` channel-size table. -/
inductive ImageChannelDataType where
  | SnormInt8 | SnormInt16 | UnormInt8 | UnormInt16
  | UnormShort565 | UnormShort555 | UnormInt101010
  | SignedInt8 | SignedInt16 | SignedInt32
  | UnsignedInt8 | UnsignedInt16 | UnsignedInt32
  | HalfFloat | Float | UnormInt24
deriving DecidableEq, Repr, Fintype

namespace ImageChannelDataType

/-- The raw integer code of a channel data type (the Rust `as u32` cast of
the enum discriminant). -/
def to_u32 : ImageChannelDataType → Nat
  | SnormInt8 => 0x10D0
  | SnormInt16 => 0x10D1
  | UnormInt8 => 0x10D2
  | UnormInt16 => 0x10D3
  | UnormShort565 => 0x10D4
  | UnormShort555 => 0x10D5
  | UnormInt101010 => 0x10D6
  | SignedInt8 => 0x10D7
  | SignedInt16 => 0x10D8
  | SignedInt32 => 0x10D9
  | UnsignedInt8 => 0x10DA
  | UnsignedInt16 => 0x10DB
  | UnsignedInt32 => 0x10DC
  | HalfFloat => 0x10DD
  | Float => 0x10DE
  | UnormInt24 => 0x10DF

/-- Embedding of `ImageChannelDataType::from_u32` (derived `num::FromPrimitive`): the
partial inverse of the discriminant cast. -/
def from_u32 : Nat → Option ImageChannelDataType
  | 0x10D0 => some SnormInt8
  | 0x10D1 => some SnormInt16
  | 0x10D2 => some UnormInt8
  | 0x10D3 => some UnormInt16
  | 0x10D4 => some UnormShort565
  | 0x10D5 => some UnormShort555
  | 0x10D6 => some UnormInt101010
  | 0x10D7 => some SignedInt8
  | 0x10D8 => some SignedInt16
  | 0x10D9 => some SignedInt32
  | 0x10DA => some UnsignedInt8
  | 0x10DB => some UnsignedInt16
  | 0x10DC => some UnsignedInt32
  | 0x10DD => some HalfFloat
  | 0x10DE => some Float
  | 0x10DF => some UnormInt24
  | _ => none

end ImageChannelDataType

/-- Embedding of `cl_h::cl_image_format`: a pair of raw integer codes
(`image_channel_order`, `image_channel_data_type`). -/
structure ClImageFormat where
  image_channel_order : Nat
  image_channel_data_type : Nat
deriving DecidableEq, Repr

/-- Embedding of `ImageFormat`: a channel order paired with a channel data type. -/
structure ImageFormat where
  channel_order : ImageChannelOrder
  channel_data_type : ImageChannelDataType
deriving DecidableEq, Repr, Fintype

namespace ImageFormat

/-- Embedding of `ImageFormat::new`. -/
def new (order : ImageChannelOrder) (data_type : ImageChannelDataType) : ImageFormat :=
  ⟨order, data_type⟩

/-- Embedding of `ImageFormat::new_rgba`: the fixed default (Rgba, SnormInt8). -/
def new_rgba : ImageFormat :=
  ⟨ImageChannelOrder.Rgba, ImageChannelDataType.SnormInt8⟩

/-- Embedding of `ImageFormat::from_raw`: converts both raw codes, the channel order
first (the first `try!` in the struct literal), failing with a conversion
error on the first code with no enumerant. -/
def from_raw (raw : ClImageFormat) : Except String ImageFormat :=
  match ImageChannelOrder.from_u32 raw.image_channel_order with
  | none => Except.error "Error converting to ImageChannelOrder."
  | some channel_order =>
      match ImageChannelDataType.from_u32 raw.image_channel_data_type with
      | none => Except.error "Error converting to ImageChannelDataType."
      | some channel_data_type => Except.ok ⟨channel_order, channel_data_type⟩

/-- Embedding of `ImageFormat::list_from_raw`: converts each element in order, pushing
results and returning (`try!`) at the first failing element. -/
def list_from_raw : List ClImageFormat → Except String (List ImageFormat)
  | [] => Except.ok []
  | clif :: rest =>
      match from_raw clif with
      | Except.error e => Except.error e
      | Except.ok f =>
          match list_from_raw rest with
          | Except.error e => Except.error e
          | Except.ok fs => Except.ok (f :: fs)

/-- Embedding of `ImageFormat::to_raw`: casts both enumerants back to raw codes. -/
def to_raw (self : ImageFormat) : ClImageFormat :=
  ⟨self.channel_order.to_u32, self.channel_data_type.to_u32⟩

/-- Embedding of `ImageFormat::pixel_bytes`: channel count (by channel-order match)
times channel size (by channel-data-type match); unmatched cases give 0. -/
def pixel_bytes (self : ImageFormat) : Nat :=
  let channel_count :=
    match self.channel_order with
    | ImageChannelOrder.R => 1
    | ImageChannelOrder.A => 1
    | ImageChannelOrder.Rg => 2
    | ImageChannelOrder.Ra => 2
    | ImageChannelOrder.Rgb => 1
    | ImageChannelOrder.Rgba => 4
    | ImageChannelOrder.Bgra => 4
    | ImageChannelOrder.Argb => 4
    | ImageChannelOrder.Intensity => 4
    | ImageChannelOrder.Luminance => 4
    | ImageChannelOrder.Rx => 2
    | ImageChannelOrder.Rgx => 4
    | ImageChannelOrder.Rgbx => 4
    | _ => 0
  let channel_size :=
    match self.channel_data_type with
    | ImageChannelDataType.SnormInt8 => 1
    | ImageChannelDataType.SnormInt16 => 2
    | ImageChannelDataType.UnormInt8 => 1
    | ImageChannelDataType.UnormInt16 => 2
    | ImageChannelDataType.UnormShort565 => 2
    | ImageChannelDataType.UnormShort555 => 2
    | ImageChannelDataType.UnormInt101010 => 4
    | ImageChannelDataType.SignedInt8 => 1
    | ImageChannelDataType.SignedInt16 => 2
    | ImageChannelDataType.SignedInt32 => 4
    | ImageChannelDataType.UnsignedInt8 => 1
    | ImageChannelDataType.UnsignedInt16 => 2
    | ImageChannelDataType.UnsignedInt32 => 4
    | ImageChannelDataType.HalfFloat => 2
    | ImageChannelDataType.Float => 4
    | _ => 0
  channel_count * channel_size

end ImageFormat

/-- Modelled from the spec: the `MemObjectType` enumeration of the `core`
module (not under the given sources); raw codes are the OpenCL
`cl_mem_object_type` codes. -/
inductive MemObjectType where
  | Buffer | Image2d | Image3d | Image2dArray
  | Image1d | Image1dArray | Image1dBuffer
deriving DecidableEq, Repr

/-- The raw integer code of a memory object type (the Rust `as u32`
cast). -/
def MemObjectType.to_u32 : MemObjectType → Nat
  | Buffer => 0x10F0
  | Image2d => 0x10F1
  | Image3d => 0x10F2
  | Image2dArray => 0x10F3
  | Image1d => 0x10F4
  | Image1dArray => 0x10F5
  | Image1dBuffer => 0x10F6

/-- Modelled from the spec: the `Mem` resource-handle type, "offering a
borrow raw pointer operation" (`Mem::as_ptr`); its raw `cl_mem` pointer is
a `Nat`. -/
structure Mem where
  as_ptr : Nat
deriving DecidableEq, Repr

/-- Embedding of `cl_h::cl_image_desc`: the fixed-layout raw image descriptor. -/
structure ClImageDesc where
  image_type : Nat
  image_width : Nat
  image_height : Nat
  image_depth : Nat
  image_array_size : Nat
  image_row_pitch : Nat
  image_slice_pitch : Nat
  num_mip_levels : Nat
  num_samples : Nat
  buffer : Nat
deriving DecidableEq, Repr

/-- Embedding of `ImageDescriptor`: image geometry plus an optional backing buffer; the
`num_mip_levels` and `num_samples` fields are private in the source. -/
structure ImageDescriptor where
  image_type : MemObjectType
  image_width : Nat
  image_height : Nat
  image_depth : Nat
  image_array_size : Nat
  image_row_pitch : Nat
  image_slice_pitch : Nat
  num_mip_levels : Nat
  num_samples : Nat
  buffer : Option Mem
deriving DecidableEq, Repr

namespace ImageDescriptor

/-- Embedding of `ImageDescriptor::new`: copies the seven public arguments and the
buffer, and initializes both reserved fields to zero. -/
def new (image_type : MemObjectType) (width height depth array_size row_pitch slc_pitch : Nat)
    (buffer : Option Mem) : ImageDescriptor :=
  { image_type := image_type
    image_width := width
    image_height := height
    image_depth := depth
    image_array_size := array_size
    image_row_pitch := row_pitch
    image_slice_pitch := slc_pitch
    num_mip_levels := 0
    num_samples := 0
    buffer := buffer }

/-- Embedding of `ImageDescriptor::to_raw`: projects every field into the raw layout;
the raw `num_samples` field is populated from `num_mip_levels`, and the
raw buffer pointer is the referenced buffer's raw handle, or 0 (null) when
absent. -/
def to_raw (self : ImageDescriptor) : ClImageDesc :=
  { image_type := self.image_type.to_u32
    image_width := self.image_width
    image_height := self.image_height
    image_depth := self.image_depth
    image_array_size := self.image_array_size
    image_row_pitch := self.image_row_pitch
    image_slice_pitch := self.image_slice_pitch
    num_mip_levels := self.num_mip_levels
    num_samples := self.num_mip_levels
    buffer :=
      match self.buffer with
      | some b => b.as_ptr
      | none => 0 }

end ImageDescriptor

/-- The channel-count table written after the spec sentence: "R, A → 1;
Rg, Ra, Rx → 2; Rgb → 1; Rgba, Bgra, Argb, Intensity, Luminance, Rgbx,
Rgx → 4; any other order → 0". -/
def channelCountSpec : ImageChannelOrder → Nat
  | ImageChannelOrder.R => 1
  | ImageChannelOrder.A => 1
  | ImageChannelOrder.Rg => 2
  | ImageChannelOrder.Ra => 2
  | ImageChannelOrder.Rx => 2
  | ImageChannelOrder.Rgb => 1
  | ImageChannelOrder.Rgba => 4
  | ImageChannelOrder.Bgra => 4
  | ImageChannelOrder.Argb => 4
  | ImageChannelOrder.Intensity => 4
  | ImageChannelOrder.Luminance => 4
  | ImageChannelOrder.Rgbx => 4
  | ImageChannelOrder.Rgx => 4
  | _ => 0

/-- The channel-size table written after the spec sentence: "8-bit types
→ 1; 16-bit types, half-float, and packed 565/555 shorts → 2; 32-bit
types and packed 10-10-10 → 4; any other data type → 0". -/
def channelSizeSpec : ImageChannelDataType → Nat
  | ImageChannelDataType.SnormInt8 => 1
  | ImageChannelDataType.UnormInt8 => 1
  | ImageChannelDataType.SignedInt8 => 1
  | ImageChannelDataType.UnsignedInt8 => 1
  | ImageChannelDataType.SnormInt16 => 2
  | ImageChannelDataType.UnormInt16 => 2
  | ImageChannelDataType.SignedInt16 => 2
  | ImageChannelDataType.UnsignedInt16 => 2
  | ImageChannelDataType.HalfFloat => 2
  | ImageChannelDataType.UnormShort565 => 2
  | ImageChannelDataType.UnormShort555 => 2
  | ImageChannelDataType.SignedInt32 => 4
  | ImageChannelDataType.UnsignedInt32 => 4
  | ImageChannelDataType.Float => 4
  | ImageChannelDataType.UnormInt101010 => 4
  | _ => 0

/-- C1 counterexample: at the concrete input of the claim — one Platform
entry with handle 0x1234 — the byte length produced by `to_bytes` is not
2 × (4 + 4 + pointer size): it is 28 (= 4 + 4 + 8 + 4 + 8), not 32. -/
theorem c1_length_counterexample :
    ¬ (ContextProperties.new.platform ⟨0x1234⟩).to_bytes.length
        = 2 * (4 + 4 + ptrSize) := by
  decide

/-- C1 (amended): for a ContextProperties with exactly one Platform entry
with handle 0x1234, `to_bytes` is exactly the tag for Platform (4
native-order bytes), 4 zero bytes, the pointer-sized native-order
encoding of 0x1234, 4 zero bytes, and a pointer-sized all-zero
terminator; the total length is (4 + 4 + pointer size) + 4 + pointer
size, i.e. 28 bytes on a 64-bit target. -/
theorem c1_wire_format :
    (ContextProperties.new.platform ⟨0x1234⟩).to_bytes
        = intoBytes32 propKindPlatform ++ List.replicate 4 0 ++
            intoBytesPtr 0x1234 ++ List.replicate 4 0 ++
            List.replicate ptrSize 0
    ∧ (ContextProperties.new.platform ⟨0x1234⟩).to_bytes.length
        = (4 + 4 + ptrSize) + 4 + ptrSize := by
  constructor
  · decide
  · decide

/-- C10: `to_bytes` on the empty ContextProperties returned by `new`
yields exactly one pointer-sized all-zero terminator: `ptrSize` bytes,
all zero. -/
theorem c10_empty_to_bytes :
    ContextProperties.new.to_bytes = List.replicate ptrSize 0
    ∧ ContextProperties.new.to_bytes.length = ptrSize := by
  constructor
  · decide
  · decide

/-- C3: `pixel_bytes` is the product of the spec's channel-count table
and channel-size table for every ImageFormat; in particular
(Rgba, UnormInt8) ↦ 4, (R, SignedInt32) ↦ 4, and a pair in neither table
(Depth, UnormInt24) ↦ 0. -/
theorem c3_pixel_bytes :
    (∀ f : ImageFormat,
        f.pixel_bytes = channelCountSpec f.channel_order *
          channelSizeSpec f.channel_data_type)
    ∧ (ImageFormat.new ImageChannelOrder.Rgba
        ImageChannelDataType.UnormInt8).pixel_bytes = 4
    ∧ (ImageFormat.new ImageChannelOrder.R
        ImageChannelDataType.SignedInt32).pixel_bytes = 4
    ∧ (ImageFormat.new ImageChannelOrder.Depth
        ImageChannelDataType.UnormInt24).pixel_bytes = 0 := by
  refine ⟨?_, by decide, by decide, by decide⟩
  decide

/-- A successful channel-order conversion inverts the discriminant
cast. -/
theorem ImageChannelOrder.order_to_of_from_u32 (c : Nat) (o : ImageChannelOrder)
    (h : ImageChannelOrder.from_u32 c = some o) : o.to_u32 = c := by
  unfold ImageChannelOrder.from_u32 at h
  split at h <;>
    first
    | exact Option.noConfusion h
    | (injection h with h2; subst h2; rfl)

/-- A successful channel-data-type conversion inverts the discriminant
cast. -/
theorem ImageChannelDataType.dataType_to_of_from_u32 (c : Nat) (d : ImageChannelDataType)
    (h : ImageChannelDataType.from_u32 c = some d) : d.to_u32 = c := by
  unfold ImageChannelDataType.from_u32 at h
  split at h <;>
    first
    | exact Option.noConfusion h
    | (injection h with h2; subst h2; rfl)

/-- C2: whenever `from_raw` succeeds on a raw pair, `to_raw` of the
resulting ImageFormat is exactly the original raw pair. -/
theorem c2_from_raw_to_raw (raw : ClImageFormat) (f : ImageFormat)
    (h : ImageFormat.from_raw raw = Except.ok f) : f.to_raw = raw := by
  obtain ⟨co, cd⟩ := raw
  unfold ImageFormat.from_raw at h
  dsimp at h
  cases ho : ImageChannelOrder.from_u32 co with
  | none => rw [ho] at h; exact absurd h (by simp)
  | some o =>
      rw [ho] at h
      cases hd : ImageChannelDataType.from_u32 cd with
      | none => rw [hd] at h; exact absurd h (by simp)
      | some d =>
          rw [hd] at h
          simp only [Except.ok.injEq] at h
          subst h
          simp [ImageFormat.to_raw, ImageChannelOrder.order_to_of_from_u32 co o ho,
            ImageChannelDataType.dataType_to_of_from_u32 cd d hd]

/-- C2 witness: the raw pair (CL_RGBA, CL_UNORM_INT8) round-trips. -/
theorem c2_witness :
    (ImageFormat.from_raw ⟨0x10B5, 0x10D2⟩ =
      Except.ok ⟨ImageChannelOrder.Rgba, ImageChannelDataType.UnormInt8⟩)
    ∧ ImageFormat.to_raw
        ⟨ImageChannelOrder.Rgba, ImageChannelDataType.UnormInt8⟩ =
        ⟨0x10B5, 0x10D2⟩ :=
  ⟨rfl, c2_from_raw_to_raw ⟨0x10B5, 0x10D2⟩
    ⟨ImageChannelOrder.Rgba, ImageChannelDataType.UnormInt8⟩ rfl⟩

/-- C5: `from_raw` is total (it returns an explicit value, never panics);
it fails with the channel-order conversion error whenever the order code
has no enumerant (regardless of the data-type code), fails with the
data-type conversion error when the order code is valid but the data-type
code is not, and returns the well-formed ImageFormat when both codes are
valid. -/
theorem c5_from_raw_validation (raw : ClImageFormat) :
    (ImageChannelOrder.from_u32 raw.image_channel_order = none →
      ImageFormat.from_raw raw =
        Except.error "Error converting to ImageChannelOrder.")
    ∧ (∀ o, ImageChannelOrder.from_u32 raw.image_channel_order = some o →
        ImageChannelDataType.from_u32 raw.image_channel_data_type = none →
        ImageFormat.from_raw raw =
          Except.error "Error converting to ImageChannelDataType.")
    ∧ (∀ o d, ImageChannelOrder.from_u32 raw.image_channel_order = some o →
        ImageChannelDataType.from_u32 raw.image_channel_data_type = some d →
        ImageFormat.from_raw raw = Except.ok ⟨o, d⟩) := by
  refine ⟨fun ho => ?_, fun o ho hd => ?_, fun o d ho hd => ?_⟩
  · simp [ImageFormat.from_raw, ho]
  · simp [ImageFormat.from_raw, ho, hd]
  · simp [ImageFormat.from_raw, ho, hd]

/-- C5 witness: an out-of-range order code (0x9999) yields the
channel-order conversion error even with a valid data-type code, and an
out-of-range data-type code (0x9999) after a valid order code yields the
data-type conversion error. -/
theorem c5_witness :
    ImageFormat.from_raw ⟨0x9999, 0x10D2⟩ =
      Except.error "Error converting to ImageChannelOrder."
    ∧ ImageFormat.from_raw ⟨0x10B5, 0x9999⟩ =
      Except.error "Error converting to ImageChannelDataType." :=
  ⟨(c5_from_raw_validation ⟨0x9999, 0x10D2⟩).1 (by decide),
   (c5_from_raw_validation ⟨0x10B5, 0x9999⟩).2.1 ImageChannelOrder.Rgba
      (by decide) (by decide)⟩

/-- Unfolding of `lastPlatformSpec` on a cons: the last Platform of the tail if there
is one, else the head if it is a Platform entry. -/
theorem lastPlatformSpec_cons (p : ContextProperty) (t : List ContextProperty) :
    lastPlatformSpec (p :: t) =
      match lastPlatformSpec t with
      | some x => some x
      | none =>
          match p with
          | ContextProperty.Platform plat => some plat
          | _ => none := by
  unfold lastPlatformSpec
  rw [List.reverse_cons, List.findSome?_append]
  cases ht : List.findSome?
      (fun prop =>
        match prop with
        | ContextProperty.Platform plat => some plat
        | _ => none) t.reverse with
  | none => cases p <;> simp [ht, List.findSome?, Option.or]
  | some x => simp [ht, Option.or]

/-- The scan of `get_platform` computes the last Platform entry, threading
any accumulator. -/
theorem foldl_last_platform (l : List ContextProperty) (acc : Option PlatformId) :
    l.foldl
      (fun platform prop =>
        match prop with
        | ContextProperty.Platform plat => some plat
        | _ => platform) acc =
      match lastPlatformSpec l with
      | some x => some x
      | none => acc := by
  induction l generalizing acc with
  | nil => rfl
  | cons p t ih =>
      rw [List.foldl_cons, ih, lastPlatformSpec_cons]
      cases lastPlatformSpec t with
      | some x => rfl
      | none => cases p <;> rfl

/-- C4: `get_platform` returns the last appended Platform entry when one
exists and none otherwise; in particular, after appending Platform(a)
then Platform(b) it returns b. -/
theorem c4_get_platform :
    (∀ cp : ContextProperties, cp.get_platform = lastPlatformSpec cp.props)
    ∧ ∀ a b : PlatformId,
        ((ContextProperties.new.platform a).platform b).get_platform = some b := by
  constructor
  · intro cp
    unfold ContextProperties.get_platform
    rw [foldl_last_platform]
    cases lastPlatformSpec cp.props <;> rfl
  · intro a b
    rfl

/-- The serialization loop of `to_bytes` appends the per-property bytes in
order after any accumulator. -/
theorem foldl_propBytes (l : List ContextProperty) (acc : List Nat) :
    l.foldl (fun bytes prop => bytes ++ ContextProperties.propBytes prop) acc =
      acc ++ (l.map ContextProperties.propBytes).flatten := by
  induction l generalizing acc with
  | nil => simp
  | cons p t ih => simp [ih]

/-- Entries skipped by the codec contribute nothing, so filtering them out
does not change the flattened byte output. -/
theorem flatten_filter_propBytes (l : List ContextProperty) :
    ((l.filter
        (fun p =>
          match p with
          | ContextProperty.Other _ => false
          | _ => true)).map ContextProperties.propBytes).flatten =
      (l.map ContextProperties.propBytes).flatten := by
  induction l with
  | nil => rfl
  | cons p t ih =>
      cases p <;> simp [List.filter, ih, ContextProperties.propBytes]

/-- C9: `to_bytes` is total and never fails; an unrecognized variant
contributes no bytes (dropping all such entries leaves the output
unchanged), and the output is always the per-entry serialization followed
by the pointer-sized terminator. -/
theorem c9_to_bytes_skips_unrecognized (cp : ContextProperties) :
    (∀ n, ContextProperties.propBytes (ContextProperty.Other n) = [])
    ∧ cp.to_bytes =
        ContextProperties.to_bytes
          ⟨cp.props.filter
            (fun p =>
              match p with
              | ContextProperty.Other _ => false
              | _ => true)⟩
    ∧ cp.to_bytes =
        (cp.props.map ContextProperties.propBytes).flatten ++ intoBytesPtr 0 := by
  refine ⟨fun n => rfl, ?_, ?_⟩
  · unfold ContextProperties.to_bytes
    rw [foldl_propBytes, foldl_propBytes]
    simp [flatten_filter_propBytes]
  · unfold ContextProperties.to_bytes
    rw [foldl_propBytes]
    simp

/-- A successful `list_from_raw` is exactly an element-wise successful
`from_raw`, in order. -/
theorem list_from_raw_ok_iff (l : List ClImageFormat) (fs : List ImageFormat) :
    ImageFormat.list_from_raw l = Except.ok fs ↔
      l.map ImageFormat.from_raw = fs.map Except.ok := by
  induction l generalizing fs with
  | nil => cases fs <;> simp [ImageFormat.list_from_raw]
  | cons r t ih =>
      cases hr : ImageFormat.from_raw r with
      | error e => cases fs <;> simp [ImageFormat.list_from_raw, hr]
      | ok f =>
          cases ht : ImageFormat.list_from_raw t with
          | error e =>
              cases fs <;> simp [ImageFormat.list_from_raw, hr, ht, ← ih]
          | ok fs2 =>
              cases fs <;> simp [ImageFormat.list_from_raw, hr, ht, ← ih]

/-- When every element before `r` converts successfully and `r` fails,
`list_from_raw` returns exactly the error of `r`. -/
theorem list_from_raw_first_error (pre : List ClImageFormat) (r : ClImageFormat)
    (post : List ClImageFormat) (e : String)
    (hpre : ∀ x ∈ pre, ∃ f, ImageFormat.from_raw x = Except.ok f)
    (hr : ImageFormat.from_raw r = Except.error e) :
    ImageFormat.list_from_raw (pre ++ r :: post) = Except.error e := by
  induction pre with
  | nil => simp [ImageFormat.list_from_raw, hr]
  | cons x t ih =>
      obtain ⟨f, hf⟩ := hpre x (List.mem_cons_self x t)
      have ht := ih (fun y hy => hpre y (List.mem_cons_of_mem x hy))
      simp [ImageFormat.list_from_raw, hf, ht]

/-- C6: `list_from_raw` returns the list of element-wise `from_raw`
results, in order, when all conversions succeed, and otherwise the error
of the earliest failing element, with no partial result list. -/
theorem c6_list_from_raw (l : List ClImageFormat) :
    (∀ fs, ImageFormat.list_from_raw l = Except.ok fs ↔
        l.map ImageFormat.from_raw = fs.map Except.ok)
    ∧ (∀ pre r post e, l = pre ++ r :: post →
        (∀ x ∈ pre, ∃ f, ImageFormat.from_raw x = Except.ok f) →
        ImageFormat.from_raw r = Except.error e →
        ImageFormat.list_from_raw l = Except.error e) := by
  refine ⟨fun fs => list_from_raw_ok_iff l fs, ?_⟩
  intro pre r post e hl hpre hr
  rw [hl]
  exact list_from_raw_first_error pre r post e hpre hr

/-- C6 witness: a three-element raw list whose middle entry has invalid
codes converts to exactly the channel-order conversion error. -/
theorem c6_witness :
    ImageFormat.list_from_raw [⟨0x10B5, 0x10D2⟩, ⟨1, 1⟩, ⟨0x10B0, 0x10D0⟩] =
      Except.error "Error converting to ImageChannelOrder." :=
  (c6_list_from_raw _).2 [⟨0x10B5, 0x10D2⟩] ⟨1, 1⟩ [⟨0x10B0, 0x10D0⟩] _ rfl
    (fun x hx => by
      rw [List.mem_singleton] at hx
      subst hx
      exact ⟨⟨ImageChannelOrder.Rgba, ImageChannelDataType.UnormInt8⟩, rfl⟩)
    rfl

/-- C7: `to_raw` emits a null (zero) buffer pointer when no buffer is
present and the referenced buffer's raw handle when one is; when every
present handle is non-null, the emitted pointer is null exactly when the
buffer is absent.  All geometry fields are copied 1:1 (the type enumerant
through its raw cast). -/
theorem c7_to_raw_buffer (d : ImageDescriptor) :
    (d.buffer = none → d.to_raw.buffer = 0)
    ∧ (∀ b, d.buffer = some b → d.to_raw.buffer = b.as_ptr)
    ∧ ((∀ b, d.buffer = some b → b.as_ptr ≠ 0) →
        (d.to_raw.buffer = 0 ↔ d.buffer = none))
    ∧ d.to_raw.image_type = d.image_type.to_u32
    ∧ d.to_raw.image_width = d.image_width
    ∧ d.to_raw.image_height = d.image_height
    ∧ d.to_raw.image_depth = d.image_depth
    ∧ d.to_raw.image_array_size = d.image_array_size
    ∧ d.to_raw.image_row_pitch = d.image_row_pitch
    ∧ d.to_raw.image_slice_pitch = d.image_slice_pitch := by
  obtain ⟨ty, w, h, dep, asz, rp, sp, nm, ns, buf⟩ := d
  cases buf with
  | none => simp [ImageDescriptor.to_raw]
  | some b =>
      refine ⟨by simp, ?_, ?_, rfl, rfl, rfl, rfl, rfl, rfl, rfl⟩
      · intro b2 hb2
        simp only [Option.some.injEq] at hb2
        subst hb2
        rfl
      · intro hnz
        have : b.as_ptr ≠ 0 := hnz b rfl
        simp [ImageDescriptor.to_raw, this]

/-- C7 witness: a descriptor with a buffer of raw handle 5 projects to
buffer pointer 5; one with no buffer projects to a null (zero) pointer. -/
theorem c7_witness :
    (ImageDescriptor.new MemObjectType.Image1dBuffer 16 1 1 0 0 0
        (some ⟨5⟩)).to_raw.buffer = 5
    ∧ (ImageDescriptor.new MemObjectType.Image2d 16 16 1 0 0 0
        none).to_raw.buffer = 0 :=
  ⟨(c7_to_raw_buffer _).2.1 ⟨5⟩ rfl, (c7_to_raw_buffer _).1 rfl⟩

/-- C8: `new` initializes both reserved fields to zero, and `to_raw`
populates the raw `num_samples` field from the descriptor's
`num_mip_levels` value, so both raw reserved fields are zero for every
descriptor built via `new`. -/
theorem c8_reserved_fields :
    (∀ ty w h dep asz rp sp buf,
        (ImageDescriptor.new ty w h dep asz rp sp buf).num_mip_levels = 0
        ∧ (ImageDescriptor.new ty w h dep asz rp sp buf).num_samples = 0
        ∧ (ImageDescriptor.new ty w h dep asz rp sp buf).to_raw.num_mip_levels = 0
        ∧ (ImageDescriptor.new ty w h dep asz rp sp buf).to_raw.num_samples = 0)
    ∧ ∀ d : ImageDescriptor, d.to_raw.num_samples = d.num_mip_levels :=
  ⟨fun _ _ _ _ _ _ _ _ => ⟨rfl, rfl, rfl, rfl⟩, fun _ => rfl⟩

end Ocl
